import Mathlib

/-!
# Verification of `evennia/contrib/collab/typeclasses.py`

A shallow embedding of the collab typeclasses module: the six attribute
namespaces generated on `CollabBase`, `CollabBase.return_appearance`,
`CollabExit.create_exit_cmdset`, and the zone command-set cache on
`CollabRoom` (`zone_exit_commandset`, `reset_zone_cmdset`, `at_cmdset_get`).

External collaborators (the base typeclasses, the perms module, the template
evaluator, the tag index) are modelled as explicit function parameters
gathered in an `Env` record; world objects are modelled by the `Obj` record
holding exactly the fields the module reads.
-/

set_option autoImplicit false

namespace Collab

/-- A world object, holding the fields `typeclasses.py` reads from an
entity: its key, aliases, lock string, destination, player-control flag,
description, the `wizdb.exit_priority` attribute, and whether it carries a
`create_exit_cmdset` method (the `hasattr` probe in `zone_exit_commandset`). -/
structure Obj where
  id : Nat
  db_key : String
  aliases : List String
  locks : String
  db_destination : Option Nat
  has_player : Bool
  db_desc : Option String
  wiz_exit_priority : Option Int
  has_create_exit_cmdset : Bool
deriving DecidableEq

/-- The environment of external collaborators: object-model methods of the
base typeclasses (`location`, `contents`, `access`, `get_display_name`,
`tags.get`) and the imported module functions (`get_owner`, `collab_check`,
`evtemplate`, `search_object_by_tag`). -/
structure Env where
  location : Obj → Option Obj
  contents : Obj → List Obj
  access : Obj → Obj → String → Bool
  get_display_name : Obj → Obj → String
  tags_get : Obj → String → List String
  get_owner : Obj → Option Obj
  collab_check : Obj → Option Obj → List String → Bool
  evtemplate : String → Option Obj → Obj → Obj → String → String
  search_object_by_tag : String → String → List Obj

/-- Python `str.strip()` whitespace set (ASCII). -/
def pyWhitespace (c : Char) : Bool :=
  c == ' ' || c == '\t' || c == '\n' || c == '\r' || c == '\x0b' || c == '\x0c'

/-- Python `str.strip()`: drop leading and trailing whitespace. -/
def pyStrip (s : String) : String :=
  String.mk (((s.toList.dropWhile pyWhitespace).reverse.dropWhile pyWhitespace).reverse)

/-- Python `str.lower()` (ASCII model). -/
def pyLower (s : String) : String :=
  String.mk (s.toList.map Char.toLower)

/-- The exit command built in `create_exit_cmdset`, with the keyword
arguments given to `self.exit_command(...)`. -/
structure ExitCommand where
  key : String
  aliases : List String
  locks : String
  auto_help : Bool
  destination : Option Nat
  arg_regex : String
  is_exit : Bool
  obj : Nat
deriving DecidableEq

/-- An Evennia command set as this module configures it: a key, a priority
(the module can leave it `None`), the duplicates flag and the contained
commands. -/
structure CmdSet where
  key : String
  priority : Option Int
  duplicates : Bool
  commands : List ExitCommand
deriving DecidableEq

/-- A freshly constructed external `CmdSet` (`CmdSet(self)` /
`cmdset.CmdSet(None)`) before this module assigns any of its fields; it
holds no commands. -/
def CmdSet.new : CmdSet :=
  { key := "Unknown", priority := some 0, duplicates := false, commands := [] }

/-- `cmdset.add(x)` where `x` is the result of `create_exit_cmdset` (a
command set, or `None` when the open_exit gate denied): merge the commands
of the added set, nothing when there is none to add. -/
def cmdsetAdd (cs : CmdSet) (other : Option CmdSet) : CmdSet :=
  match other with
  | none => cs
  | some o => { cs with commands := cs.commands ++ o.commands }

/-- `CollabExit.priority`, the class attribute. -/
def CollabExit.priority : Int := -30

/-- `location = location or self.location` at the top of
`create_exit_cmdset`. -/
def resolveLocation (env : Env) (self : Obj) (location : Option Obj) : Option Obj :=
  match location with
  | some l => some l
  | none => env.location self

/-- `CollabExit.create_exit_cmdset(self, exidbobj, location=None)`.

If the exit has an owner and `collab_check(owner, location,
locks=['open_exit'])` denies, return `None`.  Otherwise build the exit
command from `exidbobj` (key stripped and lowercased), put it in a command
set named `ExitCmdSet` with `duplicates = True`, and set the priority by
the source's branch: `if self.wizdb.exit_priority is not None: priority =
self.priority else: priority = self.wizdb.exit_priority`. -/
def create_exit_cmdset (env : Env) (self exidbobj : Obj) (location : Option Obj) :
    Option CmdSet :=
  let location := resolveLocation env self location
  if (match env.get_owner self with
      | some owner => !(env.collab_check owner location ["open_exit"])
      | none => false) then
    none
  else
    let cmd : ExitCommand :=
      { key := pyLower (pyStrip exidbobj.db_key)
        aliases := exidbobj.aliases
        locks := exidbobj.locks
        auto_help := false
        destination := exidbobj.db_destination
        arg_regex := "^$"
        is_exit := true
        obj := exidbobj.id }
    let priority : Option Int :=
      if self.wiz_exit_priority.isSome then some CollabExit.priority
      else self.wiz_exit_priority
    let exit_cmdset : CmdSet :=
      { key := "ExitCmdSet"
        priority := priority
        duplicates := true
        commands := [cmd] }
    some exit_cmdset

/-- The classification loop of `return_appearance`: for each visible
content object, its display key goes to `exits` when it has a destination,
else to `users` (colour-wrapped) when it has a player, else to `things`. -/
def classify (env : Env) (looker : Obj) :
    List Obj → List String × List String × List String
  | [] => ([], [], [])
  | con :: rest =>
    let (exits, users, things) := classify env looker rest
    let key := env.get_display_name con looker
    if con.db_destination.isSome then (key :: exits, users, things)
    else if con.has_player then (exits, ("\x7bc" ++ key ++ "\x7bn") :: users, things)
    else (exits, users, key :: things)

/-- `CollabBase.return_appearance(self, looker)`: `None` for a null looker;
otherwise the header line from the display name, the template-evaluated
description (`evtemplate(self.db.desc or '', run_as=self.owner, me=looker,
this=self, how='desc')`) when non-empty, then the `Exits` and `You see`
lines when their groups are non-empty. -/
def return_appearance (env : Env) (self : Obj) (looker : Option Obj) : Option String :=
  match looker with
  | none => none
  | some looker =>
    let visible := (env.contents self).filter
      (fun con => !(con == looker) && env.access con looker "view")
    let (exits, users, things) := classify env looker visible
    let string := "\x7bc" ++ env.get_display_name self looker ++ "\x7bn\n"
    let desc := env.evtemplate (self.db_desc.getD "") (env.get_owner self) looker self "desc"
    let string := if desc == "" then string else string ++ desc
    let string :=
      if exits.isEmpty then string
      else string ++ "\n\x7bwExits:\x7bn " ++ String.intercalate ", " exits
    let string :=
      if users.isEmpty && things.isEmpty then string
      else string ++ "\n\x7bwYou see:\x7bn " ++ String.intercalate ", " (users ++ things)
    some string

/-- `CollabRoom.zone_exit_commandset(self)`: collect the room's tags under
category `zone_room`, gather every object indexed under category
`zone_exit` for each such tag, and fold the exits with a destination and a
`create_exit_cmdset` attribute into one command set via
`exit.create_exit_cmdset(exit, location=self)`. -/
def zone_exit_commandset (env : Env) (self : Obj) : CmdSet :=
  let exit_tags := env.tags_get self "zone_room"
  let exits := exit_tags.foldl
    (fun acc tag => acc ++ env.search_object_by_tag "zone_exit" tag) []
  exits.foldl
    (fun cs ex =>
      if ex.db_destination.isSome && ex.has_create_exit_cmdset then
        cmdsetAdd cs (create_exit_cmdset env ex ex (some self))
      else cs)
    CmdSet.new

/-- The transient per-room state: `self.ndb.zone_cmdset` and the room's
cmdset handler stack (`self.cmdset`). -/
structure RoomState where
  ndb_zone_cmdset : Option CmdSet
  cmdset_stack : List CmdSet
deriving DecidableEq

/-- `CollabRoom.reset_zone_cmdset(self)`: when a zone cmdset is cached,
remove it from the handler and drop the cache. -/
def reset_zone_cmdset (st : RoomState) : RoomState :=
  match st.ndb_zone_cmdset with
  | some zc =>
    { ndb_zone_cmdset := none, cmdset_stack := st.cmdset_stack.erase zc }
  | none => st

/-- `CollabRoom.at_cmdset_get(self, **kwargs)`: when no zone cmdset is
cached, build one with `zone_exit_commandset`, cache it on `ndb` and add it
to the handler.  The returned number counts the `zone_exit_commandset`
invocations this call performed. -/
def at_cmdset_get (env : Env) (self : Obj) (st : RoomState) : RoomState × Nat :=
  match st.ndb_zone_cmdset with
  | some _ => (st, 0)
  | none =>
    let zc := zone_exit_commandset env self
    ({ ndb_zone_cmdset := some zc, cmdset_stack := st.cmdset_stack ++ [zc] }, 1)

/-- The six attribute namespaces registered on `CollabBase` via the
descriptor loop: `wizh`, `wiz`, `imh`, `pub`, `usr`, `usrh`. -/
inductive NSTag where
  | wizh | wiz | imh | pub | usr | usrh
deriving DecidableEq

/-- `init._attrtype`, the namespace's short tag. -/
def NSTag.key : NSTag → String
  | .wizh => "wizh"
  | .wiz => "wiz"
  | .imh => "imh"
  | .pub => "pub"
  | .usr => "usr"
  | .usrh => "usrh"

/-- `label = key + 'db'`, the attribute name the descriptor is bound to. -/
def NSTag.label (t : NSTag) : String := t.key ++ "db"

/-- `name = init._attrtype + 'attributes'`. -/
def NSTag.attrname (t : NSTag) : String := t.key ++ "attributes"

/-- The `DbHolder` object the getter constructs on first access; the
`holder_id` models Python object identity (each construction allocates a
fresh object). -/
structure DbHolder where
  holder_id : Nat
  name : String
  manager_name : String
deriving DecidableEq

/-- Per-entity holder state: the `_<key>_holder` instance attributes and an
allocation counter supplying fresh object identities. -/
structure HolderState where
  holders : NSTag → Option DbHolder
  next_id : Nat

/-- The generated `getter(self)`: return the stored `_<key>_holder`, or on
`AttributeError` construct `DbHolder(self, name, manager_name=key +
'attributes')`, store it, and return it. -/
def nsGetter (t : NSTag) (st : HolderState) : DbHolder × HolderState :=
  match st.holders t with
  | some h => (h, st)
  | none =>
    let h : DbHolder :=
      { holder_id := st.next_id, name := t.attrname, manager_name := t.key ++ "attributes" }
    (h, { holders := fun u => if u = t then some h else st.holders u
          next_id := st.next_id + 1 })

/-- The body of the generated `setter(self)` exactly as written in the
source: a function of `self` alone whose body raises the labeled message.
Because property assignment passes the assigned value as a second
argument and `setter` accepts only `self`, this body is unreachable
through `entity.<label> = value`. -/
def nsSetterBody (t : NSTag) (_st : HolderState) : Except String HolderState :=
  Except.error ("Cannot assign directly to " ++ t.label ++ " object! "
    ++ "Use " ++ t.label ++ ".attr=value instead.")

/-- Python property assignment `entity.<label> = value`: `property.__set__`
calls `fset(obj, value)` with two arguments, but the generated `setter`
accepts only `self`, so the interpreter raises its arity `TypeError` before
the setter body can run; the error message does not mention the
namespace's label. -/
def nsAssign {α : Type} (_t : NSTag) (_st : HolderState) (_v : α) : Except String HolderState :=
  Except.error "TypeError: setter() takes exactly 1 argument (2 given)"

/-- The generated `deleter(self)`: unconditionally raise. -/
def nsDeleter (t : NSTag) (_st : HolderState) : Except String HolderState :=
  Except.error ("Cannot delete the " ++ t.label ++ " object!")

/-- The per-entity attribute storage behind the holders: one key/value map
per namespace tag. -/
structure AttrStore where
  vals : NSTag → String → Option String

/-- Setting a key through a namespace handle (`entity.wizdb.attr = value`). -/
def attrSet (s : AttrStore) (t : NSTag) (k v : String) : AttrStore :=
  ⟨fun u k2 => if u = t ∧ k2 = k then some v else s.vals u k2⟩

/-- Deleting a key through a namespace handle (`del entity.wizdb.attr`). -/
def attrDel (s : AttrStore) (t : NSTag) (k : String) : AttrStore :=
  ⟨fun u k2 => if u = t ∧ k2 = k then none else s.vals u k2⟩

/-- The zone aggregate as the specification describes it, independently of
the fold in the source: for each `zone_room` tag of the container, for each
object indexed under `zone_exit` with that tag value, when the object has a
destination and supports capability building, the commands of
`create_exit_cmdset(object, location=container)`, all merged in order;
other objects contribute nothing. -/
def specZoneAggregate (env : Env) (container : Obj) : List ExitCommand :=
  ((env.tags_get container "zone_room").flatMap
      (fun tag => env.search_object_by_tag "zone_exit" tag)).flatMap
    (fun ex =>
      if ex.db_destination.isSome && ex.has_create_exit_cmdset then
        (create_exit_cmdset env ex ex (some container)).elim [] CmdSet.commands
      else [])

theorem foldl_append_eq_flatMap {α β : Type} (g : α → List β) :
    ∀ (l : List α) (acc : List β),
      l.foldl (fun acc tag => acc ++ g tag) acc = acc ++ l.flatMap g
  | [], acc => by simp
  | a :: l, acc => by
    simp [List.foldl, foldl_append_eq_flatMap g l (acc ++ g a), List.append_assoc]

theorem cmdsetAdd_commands (cs : CmdSet) (o : Option CmdSet) :
    (cmdsetAdd cs o).commands = cs.commands ++ o.elim [] CmdSet.commands := by
  cases o <;> simp [cmdsetAdd, Option.elim]

theorem foldl_cmdsetAdd_commands (env : Env) (container : Obj) :
    ∀ (l : List Obj) (base : CmdSet),
      (l.foldl (fun cs ex =>
          if ex.db_destination.isSome && ex.has_create_exit_cmdset then
            cmdsetAdd cs (create_exit_cmdset env ex ex (some container))
          else cs) base).commands
        = base.commands ++ l.flatMap (fun ex =>
            if ex.db_destination.isSome && ex.has_create_exit_cmdset then
              (create_exit_cmdset env ex ex (some container)).elim [] CmdSet.commands
            else [])
  | [], base => by simp
  | ex :: l, base => by
    rw [List.foldl_cons, List.flatMap_cons, foldl_cmdsetAdd_commands env container l]
    cases hd : ex.db_destination.isSome <;> cases hc : ex.has_create_exit_cmdset <;>
      simp [hd, hc, cmdsetAdd_commands, List.append_assoc]

/-- C4: the zone aggregate built by `zone_exit_commandset` contains exactly
the commands described by the specification: for each `zone_room` tag of
the container, for each object indexed under `zone_exit` with that tag,
the merged result of `create_exit_cmdset(object, location=container)` when
the object has a destination and supports capability building, and nothing
from the other objects. -/
theorem zone_exit_commandset_spec_aggregate (env : Env) (self : Obj) :
    (zone_exit_commandset env self).commands = specZoneAggregate env self := by
  simp only [zone_exit_commandset, specZoneAggregate]
  rw [foldl_append_eq_flatMap, foldl_cmdsetAdd_commands]
  simp [CmdSet.new]

/-- C2: a second `at_cmdset_get` without an intervening `reset_zone_cmdset`
leaves the room state unchanged (the cached aggregate after the first call
is the identical one the second call sees) and performs no rebuild: the
second call invokes `zone_exit_commandset` zero times, and the two calls
together invoke it at most once. -/
theorem at_cmdset_get_cached (env : Env) (self : Obj) (st : RoomState) :
    (at_cmdset_get env self (at_cmdset_get env self st).1).1
        = (at_cmdset_get env self st).1 ∧
    (at_cmdset_get env self (at_cmdset_get env self st).1).2 = 0 ∧
    (at_cmdset_get env self st).2
        + (at_cmdset_get env self (at_cmdset_get env self st).1).2 ≤ 1 := by
  cases h : st.ndb_zone_cmdset <;> simp [at_cmdset_get, h]

/-- C8: for every namespace tag, reading the handle never fails: the first
access stores a holder on the instance, and a second access returns the
identical holder with the state unchanged. -/
theorem nsGetter_memoized (t : NSTag) (st : HolderState) :
    (nsGetter t ((nsGetter t st).2)).1 = (nsGetter t st).1 ∧
    (nsGetter t ((nsGetter t st).2)).2 = (nsGetter t st).2 ∧
    ((nsGetter t st).2).holders t = some (nsGetter t st).1 := by
  cases h : st.holders t <;> simp [nsGetter, h]

theorem ne_label_append (msg lab : String)
    (h : ∀ i, i < msg.toList.length + 1 →
        (msg.toList.drop i).take lab.toList.length ≠ lab.toList)
    (a b : String) : msg ≠ a ++ (lab ++ b) := by
  intro heq
  have hdata : msg.toList = a.toList ++ (lab.toList ++ b.toList) := by
    rw [heq]; simp [String.toList, String.data_append]
  refine h a.toList.length ?_ ?_
  · rw [hdata]; simp [List.length_append]; omega
  · rw [hdata, List.drop_left, List.take_left]

/-- C5 (failing evaluation): assigning to a namespace handle raises the
interpreter's arity error — the generated `setter` takes only `self` — and
that error's message does not contain the namespace's label, for every tag,
every holder state and every assigned value; the labeled message the setter
body would build (`nsSetterBody`) is unreachable, though it does carry the
label.  Deleting the handle does raise an exception whose message contains
the label, and keys within the handle remain settable and deletable. -/
theorem ns_assignment_typeerror {α : Type} (t : NSTag) (st : HolderState) (v : α)
    (s : AttrStore) (k w : String) :
    (∃ msg, nsAssign t st v = Except.error msg ∧ ∀ a b, msg ≠ a ++ (t.label ++ b)) ∧
    (∃ msg, nsSetterBody t st = Except.error msg ∧ ∃ a b, msg = a ++ (t.label ++ b)) ∧
    (∃ msg, nsDeleter t st = Except.error msg ∧ ∃ a b, msg = a ++ (t.label ++ b)) ∧
    (attrSet s t k w).vals t k = some w ∧
    (attrDel s t k).vals t k = none := by
  refine ⟨⟨_, rfl, ne_label_append _ t.label ?_⟩,
    ⟨_, rfl, "Cannot assign directly to ",
      " object! " ++ "Use " ++ t.label ++ ".attr=value instead.", ?_⟩,
    ⟨_, rfl, "Cannot delete the ", " object!", ?_⟩, ?_, ?_⟩
  · cases t <;> decide
  · simp [String.append_assoc]
  · simp [String.append_assoc]
  · simp [attrSet]
  · simp [attrDel]

theorem create_exit_cmdset_cases (env : Env) (self exid : Obj) (loc : Option Obj) :
    create_exit_cmdset env self exid loc = none ∨
    create_exit_cmdset env self exid loc = some
      { key := "ExitCmdSet"
        priority := if self.wiz_exit_priority.isSome then some CollabExit.priority
          else self.wiz_exit_priority
        duplicates := true
        commands := [{ key := pyLower (pyStrip exid.db_key)
                       aliases := exid.aliases
                       locks := exid.locks
                       auto_help := false
                       destination := exid.db_destination
                       arg_regex := "^$"
                       is_exit := true
                       obj := exid.id }] } := by
  unfold create_exit_cmdset
  cases h : env.get_owner self with
  | none => right; simp [h]
  | some owner =>
    cases hc : env.collab_check owner (resolveLocation env self loc) ["open_exit"] with
    | false => left; simp [h, hc]
    | true => right; simp [h, hc]

/-- C3: if the exit has an owner and the `open_exit` lock check against the
resolved location denies, `create_exit_cmdset` returns nothing (and, being
total, raises no exception); if the exit has no owner, the lock check is
skipped and a command set is produced. -/
theorem create_exit_cmdset_gate (env : Env) (self exid : Obj) (loc : Option Obj) :
    (∀ owner, env.get_owner self = some owner →
        env.collab_check owner (resolveLocation env self loc) ["open_exit"] = false →
        create_exit_cmdset env self exid loc = none) ∧
    (env.get_owner self = none →
        (create_exit_cmdset env self exid loc).isSome = true) := by
  constructor
  · intro owner ho hc
    simp [create_exit_cmdset, ho, hc]
  · intro ho
    simp [create_exit_cmdset, ho]

/-- C9: the movement command produced by `create_exit_cmdset` is keyed by
the exit's stored key stripped of surrounding whitespace and lowercased, so
two exits whose keys normalize identically yield commands with the same
key. -/
theorem exit_command_key_normalized (env : Env) (self1 self2 e1 e2 : Obj)
    (loc1 loc2 : Option Obj) (cs1 cs2 : CmdSet)
    (h1 : create_exit_cmdset env self1 e1 loc1 = some cs1)
    (h2 : create_exit_cmdset env self2 e2 loc2 = some cs2)
    (hk : pyLower (pyStrip e1.db_key) = pyLower (pyStrip e2.db_key)) :
    cs1.commands.map ExitCommand.key = [pyLower (pyStrip e1.db_key)] ∧
    cs1.commands.map ExitCommand.key = cs2.commands.map ExitCommand.key := by
  have g1 : cs1.commands.map ExitCommand.key = [pyLower (pyStrip e1.db_key)] := by
    rcases create_exit_cmdset_cases env self1 e1 loc1 with h | h
    · rw [h] at h1; exact absurd h1 (by simp)
    · rw [h] at h1; cases h1; rfl
  have g2 : cs2.commands.map ExitCommand.key = [pyLower (pyStrip e2.db_key)] := by
    rcases create_exit_cmdset_cases env self2 e2 loc2 with h | h
    · rw [h] at h2; exact absurd h2 (by simp)
    · rw [h] at h2; cases h2; rfl
  exact ⟨g1, by rw [g1, g2, hk]⟩

/-- A minimal concrete environment: no locations, no contents, every access
granted, display names are the object keys, the template evaluator returns
its input text, no owners, every `collab_check` granted, no tags and no
indexed objects. -/
def envW : Env :=
  { location := fun _ => none
    contents := fun _ => []
    access := fun _ _ _ => true
    get_display_name := fun o _ => o.db_key
    tags_get := fun _ _ => []
    get_owner := fun _ => none
    collab_check := fun _ _ _ => true
    evtemplate := fun text _ _ _ _ => text
    search_object_by_tag := fun _ _ => [] }

/-- A concrete exit with a destination and no staff priority override. -/
def eastExit : Obj :=
  { id := 1
    db_key := "east"
    aliases := []
    locks := ""
    db_destination := some 2
    has_player := false
    db_desc := none
    wiz_exit_priority := none
    has_create_exit_cmdset := true }

/-- The same exit with the staff override `wizdb.exit_priority = 5`. -/
def eastExitOverride : Obj := { eastExit with wiz_exit_priority := some 5 }

/-- A concrete owning character. -/
def ownerObj : Obj :=
  { id := 9
    db_key := "keeper"
    aliases := []
    locks := ""
    db_destination := none
    has_player := true
    db_desc := none
    wiz_exit_priority := none
    has_create_exit_cmdset := false }

/-- C1 (failing evaluation): with the staff override `wizdb.exit_priority =
5` present, `create_exit_cmdset` gives the command set the type-level
default priority `-30` instead of the override value, and with the override
absent it gives the priority `None` instead of `-30`: the source's priority
branch is inverted relative to the claim. -/
theorem create_exit_cmdset_priority_inverted :
    (create_exit_cmdset envW eastExitOverride eastExitOverride none).map CmdSet.priority
        = some (some (-30)) ∧
    (create_exit_cmdset envW eastExit eastExit none).map CmdSet.priority = some none := by
  decide

theorem classify_evtemplate_irrel (env : Env)
    (f : String → Option Obj → Obj → Obj → String → String) (looker : Obj)
    (l : List Obj) :
    classify { env with evtemplate := f } looker l = classify env looker l := by
  induction l with
  | nil => rfl
  | cons con rest ih => simp [classify, ih]

/-- C6: the rendered appearance depends on the template evaluator only
through its value at the arguments `(raw description, owner of the
container, observer, container, 'desc')`: two evaluators that agree at that
one point render identically, however much they differ when handed the
observer (or anyone else) as the `run_as` authority. -/
theorem return_appearance_owner_authority (env : Env)
    (f g : String → Option Obj → Obj → Obj → String → String) (self looker : Obj)
    (h : f (self.db_desc.getD "") (env.get_owner self) looker self "desc"
        = g (self.db_desc.getD "") (env.get_owner self) looker self "desc") :
    return_appearance { env with evtemplate := f } self (some looker)
        = return_appearance { env with evtemplate := g } self (some looker) := by
  simp only [return_appearance, classify_evtemplate_irrel]
  rw [h]

/-- C7: on a container with no contents and a description that evaluates to
the empty string, `return_appearance` with a non-null observer returns
exactly the header line built from the display name, with no `Exits` and no
`You see` section. -/
theorem return_appearance_empty_container (env : Env) (self looker : Obj)
    (hc : env.contents self = [])
    (hd : env.evtemplate (self.db_desc.getD "") (env.get_owner self) looker self "desc"
        = "") :
    return_appearance env self (some looker)
        = some ("\x7bc" ++ env.get_display_name self looker ++ "\x7bn\n") := by
  simp [return_appearance, hc, hd, classify]

/-- C10: the classification loop of `return_appearance` tests the
destination before the player flag: a content object that has both a
destination and a controlling player goes into the exits group, and the
animate-occupants group is exactly that of the remaining objects. -/
theorem classify_destination_first (env : Env) (looker con : Obj) (rest : List Obj)
    (hdest : con.db_destination.isSome = true) (_hp : con.has_player = true) :
    (classify env looker (con :: rest)).1
        = env.get_display_name con looker :: (classify env looker rest).1 ∧
    (classify env looker (con :: rest)).2.1 = (classify env looker rest).2.1 := by
  simp [classify, hdest]

/-- An environment in which every object is owned by `ownerObj` and every
`collab_check` denies. -/
def envDeny : Env :=
  { envW with get_owner := fun _ => some ownerObj, collab_check := fun _ _ _ => false }

/-- Witness for C3: under `envDeny` the gated exit yields no command set;
under the ownerless `envW` a command set is produced. -/
theorem create_exit_cmdset_gate_witness :
    create_exit_cmdset envDeny eastExit eastExit none = none ∧
    (create_exit_cmdset envW eastExit eastExit none).isSome = true :=
  ⟨(create_exit_cmdset_gate envDeny eastExit eastExit none).1 ownerObj rfl rfl,
    (create_exit_cmdset_gate envW eastExit eastExit none).2 rfl⟩

/-- Witness for C6: the identity evaluator and an evaluator that misbehaves
whenever it is run as anyone other than the (absent) owner agree at the
single call point, so the renderings coincide. -/
theorem return_appearance_owner_authority_witness :
    return_appearance { envW with evtemplate := fun text _ _ _ _ => text }
        eastExit (some ownerObj)
      = return_appearance
          { envW with evtemplate := fun text ra _ _ _ =>
              if ra.isSome then "INTRUDER" else text }
          eastExit (some ownerObj) :=
  return_appearance_owner_authority envW (fun text _ _ _ _ => text)
    (fun text ra _ _ _ => if ra.isSome then "INTRUDER" else text)
    eastExit ownerObj rfl

/-- Witness for C7: the empty container `eastExit` under `envW` renders as
exactly its header line. -/
theorem return_appearance_empty_container_witness :
    return_appearance envW eastExit (some ownerObj) = some "\x7bceast\x7bn\n" := by
  have h := return_appearance_empty_container envW eastExit ownerObj rfl rfl
  simpa [envW, eastExit] using h

/-- A concrete exit whose stored key carries surrounding whitespace and
capitals. -/
def fooExitSpaced : Obj := { eastExit with db_key := " Foo " }

/-- A concrete exit with the already-normalized key. -/
def fooExitLower : Obj := { eastExit with db_key := "foo" }

/-- The command set both `fooExitSpaced` and `fooExitLower` produce. -/
def fooCmdSet : CmdSet :=
  { key := "ExitCmdSet"
    priority := none
    duplicates := true
    commands := [{ key := "foo"
                   aliases := []
                   locks := ""
                   auto_help := false
                   destination := some 2
                   arg_regex := "^$"
                   is_exit := true
                   obj := 1 }] }

/-- Witness for C9: the exits keyed `" Foo "` and `"foo"` produce commands
with the identical key `"foo"`. -/
theorem exit_command_key_normalized_witness :
    create_exit_cmdset envW fooExitSpaced fooExitSpaced none = some fooCmdSet ∧
    create_exit_cmdset envW fooExitLower fooExitLower none = some fooCmdSet ∧
    pyLower (pyStrip fooExitSpaced.db_key) = pyLower (pyStrip fooExitLower.db_key) ∧
    fooCmdSet.commands.map ExitCommand.key = fooCmdSet.commands.map ExitCommand.key :=
  ⟨by decide, by decide, by decide,
    (exit_command_key_normalized envW fooExitSpaced fooExitLower fooExitSpaced
      fooExitLower none none fooCmdSet fooCmdSet (by decide) (by decide) (by decide)).2⟩

/-- A content object that is at once an exit (has a destination) and
player-controlled. -/
def exitWithPlayer : Obj := { eastExit with has_player := true }

/-- Witness for C10: the destination-and-player object is listed among the
exits and leaves the user group empty. -/
theorem classify_destination_first_witness :
    exitWithPlayer.db_destination.isSome = true ∧ exitWithPlayer.has_player = true ∧
    (classify envW ownerObj [exitWithPlayer]).1
        = [envW.get_display_name exitWithPlayer ownerObj] ∧
    (classify envW ownerObj [exitWithPlayer]).2.1 = [] := by
  have h := classify_destination_first envW ownerObj exitWithPlayer [] rfl rfl
  exact ⟨rfl, rfl, by simpa [classify] using h.1, by simpa [classify] using h.2⟩

end Collab
